import Mathlib

/-
Verification development for the text-to-vector flattening core of the
resvg repository (crates/usvg/src/text/{colr,flatten,transform}.rs).

The Rust sources are shallowly embedded: machine floats become exact
rationals, the mutable GlyphPainter becomes explicit state passing,
panicking operations (unwrap, slice indexing) become an Except monad
whose error value marks a panic, and the XML writer becomes a list of
emitted events. External collaborators (the skrifa font tables, the
tiny-skia-path geometry crate, the usvg tree types) are modelled from
the specification where noted.
-/

namespace Resvg

/-- Color with 8-bit channels, as in svgtypes::Color (red, green, blue, alpha). -/
structure Color where
  red : Nat
  green : Nat
  blue : Nat
  alpha : Nat
deriving DecidableEq, Repr

/-- Affine 2D transform with the field layout of skrifa::color::Transform
(xx yx xy yy dx dy), scalars modelled as exact rationals. -/
structure Transform where
  xx : ℚ
  yx : ℚ
  xy : ℚ
  yy : ℚ
  dx : ℚ
  dy : ℚ
deriving DecidableEq, Repr

/-- The identity transform; skrifa Transform::default(). -/
def Transform.ident : Transform := ⟨1, 0, 0, 1, 0, 0⟩

/-- Modelled from the spec: composition of PaintTransform values is matrix
multiplication (spec section 3); this is the Mul instance of the external
skrifa::color::Transform type, with columns (xx,yx), (xy,yy), (dx,dy). -/
def Transform.mul (a b : Transform) : Transform :=
  { xx := a.xx * b.xx + a.xy * b.yx
    yx := a.yx * b.xx + a.yy * b.yx
    xy := a.xx * b.xy + a.xy * b.yy
    yy := a.yx * b.xy + a.yy * b.yy
    dx := a.xx * b.dx + a.xy * b.dy + a.dx
    dy := a.yx * b.dx + a.yy * b.dy + a.dy }

/-- Affine 2D transform with the field layout of tiny_skia_path::Transform
(sx ky kx sy tx ty). -/
structure TspTransform where
  sx : ℚ
  ky : ℚ
  kx : ℚ
  sy : ℚ
  tx : ℚ
  ty : ℚ
deriving DecidableEq, Repr

/-- The identity; tiny_skia_path Transform::default(). -/
def TspTransform.ident : TspTransform := ⟨1, 0, 0, 1, 0, 0⟩

/-- Modelled from the spec: matrix multiplication on the external
tiny-skia-path transforms; (mul a b) maps a point by b first, then by a. -/
def TspTransform.mul (a b : TspTransform) : TspTransform :=
  { sx := a.sx * b.sx + a.kx * b.ky
    ky := a.ky * b.sx + a.sy * b.ky
    kx := a.sx * b.kx + a.kx * b.sy
    sy := a.ky * b.kx + a.sy * b.sy
    tx := a.sx * b.tx + a.kx * b.ty + a.tx
    ty := a.ky * b.tx + a.sy * b.ty + a.ty }

/-- Modelled from the spec: tiny-skia-path pre_concat, which concatenates
the other transform before self (other applied to points first). -/
def TspTransform.pre_concat (a b : TspTransform) : TspTransform :=
  TspTransform.mul a b

/-- Determinant of the linear part of a tiny-skia-path transform. -/
def TspTransform.det (t : TspTransform) : ℚ :=
  t.sx * t.sy - t.kx * t.ky

/-- Modelled from the spec: tiny-skia-path Transform::invert, absent exactly
when the transform is singular (zero determinant), otherwise the affine
inverse. -/
def TspTransform.invert (t : TspTransform) : Option TspTransform :=
  if t.det = 0 then none
  else
    some
      { sx := t.sy / t.det
        ky := -t.ky / t.det
        kx := -t.kx / t.det
        sy := t.sx / t.det
        tx := (t.kx * t.ty - t.sy * t.tx) / t.det
        ty := (t.ky * t.tx - t.sx * t.ty) / t.det }

/-- transform.rs: skrifa_to_tsp_transform, built with
Transform::from_row(t.xx, t.yx, t.xy, t.yy, t.dx, t.dy). -/
def skrifa_to_tsp_transform (t : Transform) : TspTransform :=
  ⟨t.xx, t.yx, t.xy, t.yy, t.dx, t.dy⟩

/-- transform.rs: tsp_to_skrifa_transform, the inverse field shuffle. -/
def tsp_to_skrifa_transform (t : TspTransform) : Transform :=
  ⟨t.sx, t.ky, t.kx, t.sy, t.tx, t.ty⟩

/-- colr.rs paint_transform: convert both transforms to tiny-skia form,
invert the outline transform (warning and identity fallback when singular),
pre-concatenate the paint-local transform, convert back. The Bool records
whether the singular-transform diagnostic fired (log_none). -/
def paint_transform (outline_transform transform : Transform) : Transform × Bool :=
  let o := skrifa_to_tsp_transform outline_transform
  let g := skrifa_to_tsp_transform transform
  match o.invert with
  | none => (tsp_to_skrifa_transform (TspTransform.pre_concat TspTransform.ident g), true)
  | some inv => (tsp_to_skrifa_transform (TspTransform.pre_concat inv g), false)

/-- One token of a recorded path: the commands produced by the outline pen
(Builder in colr.rs, PathBuilder in flatten.rs), coordinates as rationals. -/
inductive PathCmd where
  | moveTo (x y : ℚ)
  | lineTo (x y : ℚ)
  | quadTo (cx0 cy0 x y : ℚ)
  | curveTo (cx0 cy0 cx1 cy1 x y : ℚ)
  | close
deriving DecidableEq, Repr

/-- Gradient extend mode, as skrifa::color::Extend. -/
inductive Extend where
  | pad
  | reflect
  | repeatE
  | unknown
deriving DecidableEq, Repr

/-- One emitted XML event of the xmlwriter collaborator. Attribute values
keep their source type instead of being formatted to text. -/
inductive XmlEvent where
  | startElement (name : String)
  | endElement
  | attrStr (name v : String)
  | attrNum (name : String) (v : ℚ)
  | attrColor (name : String) (c : Color)
  | attrTransform (name : String) (t : Transform)
  | attrPath (name : String) (d : List PathCmd)
deriving DecidableEq, Repr

/-- colr.rs XmlWriterExt::write_transform_attribute: the attribute is
skipped entirely when the transform is the default (identity). -/
def write_transform_attribute (name : String) (t : Transform) : List XmlEvent :=
  if t = Transform.ident then [] else [XmlEvent.attrTransform name t]

/-- colr.rs XmlWriterExt::write_spread_method_attribute: Unknown writes
nothing. -/
def write_spread_method_attribute (extend : Extend) : List XmlEvent :=
  match extend with
  | Extend.pad => [XmlEvent.attrStr "spreadMethod" "pad"]
  | Extend.repeatE => [XmlEvent.attrStr "spreadMethod" "repeat"]
  | Extend.reflect => [XmlEvent.attrStr "spreadMethod" "reflect"]
  | Extend.unknown => []

/-- Modelled from the spec: the font table source collaborator (spec
section 6). cpalRecords is the combined outcome of font.cpal() and
cpal.color_records_array() in colr.rs — absent when the table is missing,
unreadable, or has no records array. outlineGlyph gives the pen commands
drawn for a glyph at unscaled size, absent when the glyph has no outline. -/
structure Font where
  cpalRecords : Option (List Color)
  outlineGlyph : Nat → Option (List PathCmd)

/-- The mutable state of colr.rs GlyphPainter, made explicit. svg is the
event list emitted so far, warnings collects diagnostic prints. -/
structure PainterState where
  font : Font
  svg : List XmlEvent
  path_buf : List PathCmd
  gradient_index : Nat
  clip_path_index : Nat
  foreground_color : Color
  transform : Transform
  outline_transform : Transform
  transforms_stack : List Transform
  warnings : List String

/-- Rust numeric cast to u8 applied to an exact rational: truncation toward
zero with saturation to 0..255 (for non-negative inputs this is the floor). -/
def rustCastU8 (q : ℚ) : Nat :=
  min (Int.toNat (Int.floor q)) 255

/-- The alpha combination step of palette_index_to_color:
color.alpha = ((color.alpha as f32) * alpha) as u8. -/
def apply_alpha (c : Color) (alpha : ℚ) : Color :=
  { c with alpha := rustCastU8 ((c.alpha : ℚ) * alpha) }

/-- colr.rs GlyphPainter::palette_index_to_color. The sentinel index
u16::MAX (65535) selects the foreground color; otherwise a missing cpal
table or records array yields none via the question-mark operator, and the
record slice is indexed directly — an out-of-range index is a panic,
modelled as the Except error. -/
def palette_index_to_color (font : Font) (foreground_color : Color)
    (palette_index : Nat) (alpha : ℚ) : Except Unit (Option Color) :=
  if palette_index = 65535 then
    Except.ok (some (apply_alpha foreground_color alpha))
  else
    match font.cpalRecords with
    | none => Except.ok none
    | some records =>
      if h : palette_index < records.length then
        Except.ok (some (apply_alpha (records.get ⟨palette_index, h⟩) alpha))
      else
        Except.error ()

/-- A 2D point (skrifa Point of f32). -/
structure Point where
  x : ℚ
  y : ℚ
deriving DecidableEq, Repr

/-- skrifa::color::ColorStop: offset, palette index, alpha factor. -/
structure ColorStop where
  offset : ℚ
  palette_index : Nat
  alpha : ℚ
deriving DecidableEq, Repr

/-- skrifa::color::Brush, the fill description passed to fill. -/
inductive Brush where
  | solid (palette_index : Nat) (alpha : ℚ)
  | linearGradient (p0 p1 : Point) (color_stops : List ColorStop) (extend : Extend)
  | radialGradient (c0 : Point) (r0 : ℚ) (c1 : Point) (r1 : ℚ)
      (color_stops : List ColorStop) (extend : Extend)
  | sweepGradient (c0 : Point) (start_angle end_angle : ℚ)
      (color_stops : List ColorStop) (extend : Extend)

/-- colr.rs GlyphPainter::paint_solid: one path element filled with the
color, opacity alpha/255, the outline transform, and the last recorded
path buffer as path data — emitted even when the buffer is empty. -/
def paint_solid (s : PainterState) (color : Color) : PainterState :=
  { s with
    svg := s.svg ++
      [XmlEvent.startElement "path",
       XmlEvent.attrColor "fill" color,
       XmlEvent.attrNum "fill-opacity" ((color.alpha : ℚ) / 255)] ++
      write_transform_attribute "transform" s.outline_transform ++
      [XmlEvent.attrPath "d" s.path_buf,
       XmlEvent.endElement] }

/-- colr.rs GlyphPainter::write_gradient_stops: each stop resolves its
palette color and unwraps the result — an absent color is a panic. -/
def write_gradient_stops (s : PainterState) (stops : List ColorStop) :
    Except Unit PainterState :=
  stops.foldlM
    (fun st stop =>
      match palette_index_to_color st.font st.foreground_color
          stop.palette_index stop.alpha with
      | Except.error _ => Except.error ()
      | Except.ok none => Except.error ()
      | Except.ok (some color) =>
        Except.ok
          { st with
            svg := st.svg ++
              [XmlEvent.startElement "stop",
               XmlEvent.attrNum "offset" stop.offset,
               XmlEvent.attrColor "stop-color" color,
               XmlEvent.attrNum "stop-opacity" ((color.alpha : ℚ) / 255),
               XmlEvent.endElement] })
    s

/-- The diagnostic printed by log_none inside paint_transform. -/
def gradientTransformWarning : String :=
  "Failed to calculate transform for gradient in glyph."

/-- Append the singular-outline-transform diagnostic when it fired. -/
def gradient_warnings (warned : Bool) : List String :=
  if warned then [gradientTransformWarning] else []

/-- colr.rs GlyphPainter::paint_linear_gradient. -/
def paint_linear_gradient (s : PainterState) (p0 p1 : Point)
    (color_stops : List ColorStop) (extend : Extend) :
    Except Unit PainterState :=
  let gradient_id := "lg" ++ toString s.gradient_index
  let gt := paint_transform s.outline_transform s.transform
  let s1 :=
    { s with
      gradient_index := s.gradient_index + 1
      warnings := s.warnings ++ gradient_warnings gt.2
      svg := s.svg ++
        [XmlEvent.startElement "linearGradient",
         XmlEvent.attrStr "id" gradient_id,
         XmlEvent.attrNum "x1" p0.x,
         XmlEvent.attrNum "y1" p0.y,
         XmlEvent.attrNum "x2" p1.x,
         XmlEvent.attrNum "y2" p1.y,
         XmlEvent.attrStr "gradientUnits" "userSpaceOnUse"] ++
        write_spread_method_attribute extend ++
        write_transform_attribute "gradientTransform" gt.1 }
  match write_gradient_stops s1 color_stops with
  | Except.error _ => Except.error ()
  | Except.ok s2 =>
    Except.ok
      { s2 with
        svg := s2.svg ++
          [XmlEvent.endElement,
           XmlEvent.startElement "path",
           XmlEvent.attrStr "fill" ("url(#" ++ gradient_id ++ ")")] ++
          write_transform_attribute "transform" s2.outline_transform ++
          [XmlEvent.attrPath "d" s2.path_buf,
           XmlEvent.endElement] }

/-- colr.rs GlyphPainter::paint_radial_gradient; the end circle maps to
cx/cy/r and the start circle to fx/fy/fr. -/
def paint_radial_gradient (s : PainterState) (c0 : Point) (r0 : ℚ)
    (c1 : Point) (r1 : ℚ) (color_stops : List ColorStop) (extend : Extend) :
    Except Unit PainterState :=
  let gradient_id := "rg" ++ toString s.gradient_index
  let gt := paint_transform s.outline_transform s.transform
  let s1 :=
    { s with
      gradient_index := s.gradient_index + 1
      warnings := s.warnings ++ gradient_warnings gt.2
      svg := s.svg ++
        [XmlEvent.startElement "radialGradient",
         XmlEvent.attrStr "id" gradient_id,
         XmlEvent.attrNum "cx" c1.x,
         XmlEvent.attrNum "cy" c1.y,
         XmlEvent.attrNum "r" r1,
         XmlEvent.attrNum "fr" r0,
         XmlEvent.attrNum "fx" c0.x,
         XmlEvent.attrNum "fy" c0.y,
         XmlEvent.attrStr "gradientUnits" "userSpaceOnUse"] ++
        write_spread_method_attribute extend ++
        write_transform_attribute "gradientTransform" gt.1 }
  match write_gradient_stops s1 color_stops with
  | Except.error _ => Except.error ()
  | Except.ok s2 =>
    Except.ok
      { s2 with
        svg := s2.svg ++
          [XmlEvent.endElement,
           XmlEvent.startElement "path",
           XmlEvent.attrStr "fill" ("url(#" ++ gradient_id ++ ")")] ++
          write_transform_attribute "transform" s2.outline_transform ++
          [XmlEvent.attrPath "d" s2.path_buf,
           XmlEvent.endElement] }

/-- The diagnostic printed for sweep gradients. -/
def sweepWarning : String :=
  "Warning: sweep gradients are not supported."

/-- colr.rs GlyphPainter::paint_sweep_gradient: prints a warning and draws
nothing. -/
def paint_sweep_gradient (s : PainterState) : PainterState :=
  { s with warnings := s.warnings ++ [sweepWarning] }

/-- colr.rs GlyphPainter::clip_with_path: emits a clipPath definition
holding one path (with the outline transform), then opens a group that
references it; the clip id counter advances. -/
def clip_with_path (s : PainterState) (path : List PathCmd) : PainterState :=
  let clip_id := "cp" ++ toString s.clip_path_index
  { s with
    clip_path_index := s.clip_path_index + 1
    svg := s.svg ++
      [XmlEvent.startElement "clipPath",
       XmlEvent.attrStr "id" clip_id,
       XmlEvent.startElement "path"] ++
      write_transform_attribute "transform" s.outline_transform ++
      [XmlEvent.attrPath "d" path,
       XmlEvent.endElement,
       XmlEvent.endElement,
       XmlEvent.startElement "g",
       XmlEvent.attrStr "clip-path" ("url(#" ++ clip_id ++ ")")] }

/-- colr.rs ColorPainter::push_transform for GlyphPainter: save the active
transform on the stack, then left-multiply the new transform onto it. -/
def push_transform (s : PainterState) (transform : Transform) : PainterState :=
  { s with
    transforms_stack := s.transform :: s.transforms_stack
    transform := Transform.mul transform s.transform }

/-- colr.rs ColorPainter::pop_transform: restore the top of the stack if
present, otherwise a silent no-op. -/
def pop_transform (s : PainterState) : PainterState :=
  match s.transforms_stack with
  | [] => s
  | ts :: rest => { s with transform := ts, transforms_stack := rest }

/-- colr.rs ColorPainter::push_clip_glyph: clear the path buffer, draw the
glyph outline (unscaled, unhinted) into it, and record the current active
transform as the outline transform. When the glyph has no outline the
function returns early with the buffer left cleared. No clip-path element
is emitted and no group is opened here. -/
def push_clip_glyph (s : PainterState) (glyph_id : Nat) : PainterState :=
  match s.font.outlineGlyph glyph_id with
  | some cmds =>
    { s with path_buf := cmds, outline_transform := s.transform }
  | none => { s with path_buf := [] }

/-- colr.rs ColorPainter::push_clip_box: a rectangle path in the fixed
corner order, then clip_with_path. -/
def push_clip_box (s : PainterState) (x_min y_min x_max y_max : ℚ) :
    PainterState :=
  clip_with_path s
    [PathCmd.moveTo x_min y_min,
     PathCmd.lineTo x_max y_min,
     PathCmd.lineTo x_max y_max,
     PathCmd.lineTo x_min y_max,
     PathCmd.close]

/-- colr.rs ColorPainter::pop_clip: unconditionally close one element. -/
def pop_clip (s : PainterState) : PainterState :=
  { s with svg := s.svg ++ [XmlEvent.endElement] }

/-- colr.rs ColorPainter::fill: dispatch on the brush. The solid branch
unwraps the palette resolution — an absent color (missing palette) or an
out-of-range index is a panic, modelled as the Except error; gradient
stops unwrap the same way inside write_gradient_stops; sweep gradients
print a warning and are skipped. -/
def fill (s : PainterState) (brush : Brush) : Except Unit PainterState :=
  match brush with
  | Brush.solid palette_index alpha =>
    match palette_index_to_color s.font s.foreground_color palette_index alpha with
    | Except.error _ => Except.error ()
    | Except.ok none => Except.error ()
    | Except.ok (some color) => Except.ok (paint_solid s color)
  | Brush.linearGradient p0 p1 color_stops extend =>
    paint_linear_gradient s p0 p1 color_stops extend
  | Brush.radialGradient c0 r0 c1 r1 color_stops extend =>
    paint_radial_gradient s c0 r0 c1 r1 color_stops extend
  | Brush.sweepGradient _ _ _ _ _ =>
    Except.ok (paint_sweep_gradient s)

/-- flatten.rs DatabaseExt::colr, lines 314-350: the initial painter state
built for every color glyph translation. The foreground color is the
constant opaque black Color::new_rgba(0, 0, 0, 255); no caller-supplied
color reaches this constructor. -/
def colr_initial_state (font : Font) : PainterState :=
  { font := font
    svg :=
      [XmlEvent.startElement "svg",
       XmlEvent.attrStr "xmlns" "http://www.w3.org/2000/svg",
       XmlEvent.attrStr "xmlns:xlink" "http://www.w3.org/1999/xlink",
       XmlEvent.startElement "g"]
    path_buf := []
    gradient_index := 1
    clip_path_index := 1
    foreground_color := ⟨0, 0, 0, 255⟩
    transform := Transform.ident
    outline_transform := Transform.ident
    transforms_stack := [Transform.ident]
    warnings := [] }

/-- usvg TextRendering. -/
inductive TextRendering where
  | optimizeSpeed
  | optimizeLegibility
  | geometricPrecision
deriving DecidableEq, Repr

/-- usvg ShapeRendering. -/
inductive ShapeRendering where
  | optimizeSpeed
  | crispEdges
  | geometricPrecision
deriving DecidableEq, Repr

/-- flatten.rs resolve_rendering_mode. -/
def resolve_rendering_mode (rendering_mode : TextRendering) : ShapeRendering :=
  match rendering_mode with
  | TextRendering.optimizeSpeed => ShapeRendering.crispEdges
  | TextRendering.optimizeLegibility => ShapeRendering.geometricPrecision
  | TextRendering.geometricPrecision => ShapeRendering.geometricPrecision

/-- usvg PaintOrder. -/
inductive PaintOrder where
  | fillAndStroke
  | strokeAndFill
deriving DecidableEq, Repr

/-- A usvg Path node as assembled by flatten.rs: the per-span paint
attributes (fill and stroke payloads are opaque to this code and modelled
as tags), a rendering mode, and the path data. -/
structure FPath where
  visible : Bool
  fill : Option Nat
  stroke : Option Nat
  paintOrder : PaintOrder
  renderingMode : ShapeRendering
  data : List PathCmd
deriving DecidableEq, Repr

/-- An axis-aligned rectangle (left, top, right, bottom). -/
structure Rect where
  x0 : ℚ
  y0 : ℚ
  x1 : ℚ
  y1 : ℚ
deriving DecidableEq, Repr

/-- A node of the flattened subtree. Color-layer trees, embedded vector
fragments and raster images are spliced in as opaque wrapped groups: their
internal structure is external data, so each carries the stroke bounding
box computed for it (absent when it has none) and an identifying tag. -/
inductive FNode where
  | path (p : FPath)
  | group (bbox : Option Rect) (tag : Nat)
deriving DecidableEq, Repr

/-- Whether a node is a path node. -/
def FNode.isPath : FNode → Bool
  | FNode.path _ => true
  | FNode.group _ _ => false

/-- One positioned glyph together with the outcome of the four cache
lookups flatten.rs performs on it (the font table source collaborator):
a color-layer tree, an embedded vector document node, a raster image —
each already wrapped and with its bounding box computed — and the outline
path after the placement transform. -/
structure PositionedGlyph where
  colr : Option (Option Rect × Nat)
  svgDoc : Option (Option Rect × Nat)
  raster : Option (Option Rect × Nat)
  outline : Option (List PathCmd)

/-- flatten.rs layout::Span: shared paint attributes, optional decoration
paths and the positioned glyphs. -/
structure FSpan where
  visible : Bool
  fill : Option Nat
  stroke : Option Nat
  paintOrder : PaintOrder
  overline : Option FPath
  underline : Option FPath
  lineThrough : Option FPath
  positioned_glyphs : List PositionedGlyph

/-- usvg Text, reduced to what flatten reads: id, rendering mode, layouted
spans. -/
structure FText where
  id : String
  rendering_mode : TextRendering
  layouted : List FSpan

/-- Modelled from the spec: tiny_skia_path PathBuilder::finish combined
with usvg Path::new (both outside src/). The spec batching rule says the
batch, if non-empty, becomes exactly one path node, and empty buffers are
filtered out, never emitted as empty shapes. -/
def finish_path (builder : List PathCmd) : Option (List PathCmd) :=
  if builder.isEmpty then none else some builder

/-- flatten.rs push_outline_paths: take the builder (leaving it empty) and,
when it finishes to a path, append one path node carrying the span
attributes and the given rendering mode. Returns the new builder and the
new children list. -/
def push_outline_paths (span : FSpan) (builder : List PathCmd)
    (new_children : List FNode) (rendering_mode : ShapeRendering) :
    List PathCmd × List FNode :=
  match finish_path builder with
  | some p =>
    ([], new_children ++
      [FNode.path
        { visible := span.visible
          fill := span.fill
          stroke := span.stroke
          paintOrder := span.paintOrder
          renderingMode := rendering_mode
          data := p }])
  | none => ([], new_children)

/-- The per-glyph body of the loop in flatten.rs lines 81-139: the four
representations are tried in priority order. The COLR branch appends its
wrapped group without touching the outline batch; the SVG and raster
branches flush the batch first; an available outline is appended to the
batch; a fully unresolved glyph contributes nothing. -/
def flatten_glyph (span : FSpan) (rendering_mode : ShapeRendering)
    (st : List PathCmd × List FNode) (glyph : PositionedGlyph) :
    List PathCmd × List FNode :=
  match glyph.colr with
  | some art => (st.1, st.2 ++ [FNode.group art.1 art.2])
  | none =>
    match glyph.svgDoc with
    | some art =>
      let st2 := push_outline_paths span st.1 st.2 rendering_mode
      (st2.1, st2.2 ++ [FNode.group art.1 art.2])
    | none =>
      match glyph.raster with
      | some art =>
        let st2 := push_outline_paths span st.1 st.2 rendering_mode
        (st2.1, st2.2 ++ [FNode.group art.1 art.2])
      | none =>
        match glyph.outline with
        | some outline => (st.1 ++ outline, st.2)
        | none => st

/-- A cloned decoration path with the rendering mode replaced. -/
def decoration_path (p : Option FPath) (rendering_mode : ShapeRendering) :
    List FNode :=
  match p with
  | some path => [FNode.path { path with renderingMode := rendering_mode }]
  | none => []

/-- The per-span body of flatten.rs lines 60-148: over-line and under-line
first, then the glyph loop with its outline batch, the end-of-span flush,
and the strike-through last. -/
def flatten_span (rendering_mode : ShapeRendering) (span : FSpan) :
    List FNode :=
  let nc0 := decoration_path span.overline rendering_mode ++
    decoration_path span.underline rendering_mode
  let st := span.positioned_glyphs.foldl
    (flatten_glyph span rendering_mode) ([], nc0)
  let st2 := push_outline_paths span st.1 st.2 rendering_mode
  st2.2 ++ decoration_path span.lineThrough rendering_mode

/-- The children list flatten assembles across all spans. -/
def flatten_children (text : FText) : List FNode :=
  let rendering_mode := resolve_rendering_mode text.rendering_mode
  text.layouted.foldl (fun acc span => acc ++ flatten_span rendering_mode span) []

/-- The top-level group returned by flatten. -/
structure FGroup where
  id : String
  children : List FNode
deriving DecidableEq, Repr

/-- Union of two optional rectangles. -/
def rect_union : Option Rect → Option Rect → Option Rect
  | none, r => r
  | some r, none => some r
  | some a, some b =>
    some ⟨min a.x0 b.x0, min a.y0 b.y0, max a.x1 b.x1, max a.y1 b.y1⟩

/-- The coordinate points mentioned by a list of path commands. -/
def path_points : List PathCmd → List (ℚ × ℚ)
  | [] => []
  | PathCmd.moveTo x y :: rest => (x, y) :: path_points rest
  | PathCmd.lineTo x y :: rest => (x, y) :: path_points rest
  | PathCmd.quadTo cx0 cy0 x y :: rest =>
    (cx0, cy0) :: (x, y) :: path_points rest
  | PathCmd.curveTo cx0 cy0 cx1 cy1 x y :: rest =>
    (cx0, cy0) :: (cx1, cy1) :: (x, y) :: path_points rest
  | PathCmd.close :: rest => path_points rest

/-- Modelled from the spec: the bounding rectangle of a point list, absent
when there are no points (tiny-skia Rect::from_points). -/
def rect_from_points (ps : List (ℚ × ℚ)) : Option Rect :=
  ps.foldl (fun acc p => rect_union acc (some ⟨p.1, p.2, p.1, p.2⟩)) none

/-- Modelled from the spec: the stroke bounding box of one node — paths
from their own points, spliced groups from the bounding box computed for
their external subtree (spec section 4.5: bounding boxes are recomputed
bottom-up after assembly; the usvg routines live outside src/). -/
def node_stroke_bbox : FNode → Option Rect
  | FNode.path p => rect_from_points (path_points p.data)
  | FNode.group bbox _ => bbox

/-- Modelled from the spec: the stroke bounding box of the assembled group,
the union over its children (absent for an empty group). -/
def group_stroke_bbox (children : List FNode) : Option Rect :=
  children.foldl (fun acc n => rect_union acc (node_stroke_bbox n)) none

/-- Modelled from the spec: Rect::to_non_zero_rect — absent when the
rectangle has zero width or height. -/
def to_non_zero_rect (r : Option Rect) : Option Rect :=
  match r with
  | none => none
  | some r => if r.x0 < r.x1 ∧ r.y0 < r.y1 then some r else none

/-- flatten.rs flatten, lines 55-162: assemble the children, build the
group, and return it with its stroke bounding box as a non-zero rectangle,
or none when that conversion fails. -/
def flatten (text : FText) : Option (FGroup × Rect) :=
  let new_children := flatten_children text
  let group : FGroup := ⟨text.id, new_children⟩
  match to_non_zero_rect (group_stroke_bbox new_children) with
  | some r => some (group, r)
  | none => none

/-- C5: push_transform sets the active transform to the product of T with
the prior active transform (T the pre-composed, leftmost factor) and pushes
the prior active transform onto the stack; a subsequent pop_transform
restores the previously active transform, and the whole state, exactly. -/
theorem push_pop_transform_roundtrip (T : Transform) (s : PainterState) :
    (push_transform s T).transform = Transform.mul T s.transform ∧
    (push_transform s T).transforms_stack = s.transform :: s.transforms_stack ∧
    pop_transform (push_transform s T) = s := by
  refine ⟨rfl, rfl, ?_⟩
  cases s
  simp [push_transform, pop_transform]

/-- C9: the color-glyph translation entry point always initializes the
interpreter foreground color to opaque black, independent of the font and
of any surrounding document state (the constructor takes nothing else), so
a sentinel-index resolution yields black with the combined alpha. -/
theorem colr_foreground_always_black (font : Font) (alpha : ℚ) :
    (colr_initial_state font).foreground_color = ⟨0, 0, 0, 255⟩ ∧
    palette_index_to_color font (colr_initial_state font).foreground_color
        65535 alpha =
      Except.ok (some ⟨0, 0, 0, rustCastU8 (255 * alpha)⟩) := by
  refine ⟨rfl, ?_⟩
  simp [palette_index_to_color, colr_initial_state, apply_alpha]

/-- C2 counterexample: with a present color table of one record, the
non-sentinel palette index 1 is out of range and resolution panics
(index out of bounds) instead of returning absent. -/
theorem palette_oob_index_panics_cex :
    palette_index_to_color ⟨some [⟨1, 2, 3, 4⟩], fun _ => none⟩
      ⟨0, 0, 0, 255⟩ 1 1 = Except.error () := rfl

/-- C2 (amended): for a non-sentinel palette index, a missing color table
resolves to absent, but an index out of range of the color-records array
panics rather than returning absent; the sentinel index 65535 yields the
foreground color with the combined alpha. -/
theorem palette_resolution_behavior (font : Font) (fg : Color) (alpha : ℚ) :
    (∀ palette_index : Nat, palette_index ≠ 65535 →
      (font.cpalRecords = none →
        palette_index_to_color font fg palette_index alpha = Except.ok none) ∧
      (∀ records, font.cpalRecords = some records →
        records.length ≤ palette_index →
        palette_index_to_color font fg palette_index alpha =
          Except.error ())) ∧
    palette_index_to_color font fg 65535 alpha =
      Except.ok (some (apply_alpha fg alpha)) := by
  refine ⟨fun palette_index hidx => ⟨fun hnone => ?_, fun records hsome hlen => ?_⟩, ?_⟩
  · simp [palette_index_to_color, hidx, hnone]
  · simp [palette_index_to_color, hidx, hsome, Nat.not_lt.mpr hlen]
  · simp [palette_index_to_color]

/-- C2 witness: the three branches at concrete inputs. -/
theorem palette_resolution_behavior_witness :
    palette_index_to_color ⟨none, fun _ => none⟩ ⟨0, 0, 0, 255⟩ 0 1 =
      Except.ok none ∧
    palette_index_to_color ⟨some [⟨1, 2, 3, 4⟩], fun _ => none⟩
      ⟨0, 0, 0, 255⟩ 5 1 = Except.error () ∧
    palette_index_to_color ⟨none, fun _ => none⟩ ⟨9, 9, 9, 200⟩ 65535 1 =
      Except.ok (some (apply_alpha ⟨9, 9, 9, 200⟩ 1)) :=
  ⟨((palette_resolution_behavior ⟨none, fun _ => none⟩ ⟨0, 0, 0, 255⟩ 1).1 0
      (by decide)).1 rfl,
   ((palette_resolution_behavior ⟨some [⟨1, 2, 3, 4⟩], fun _ => none⟩
      ⟨0, 0, 0, 255⟩ 1).1 5 (by decide)).2 [⟨1, 2, 3, 4⟩] rfl (by decide),
   (palette_resolution_behavior ⟨none, fun _ => none⟩ ⟨9, 9, 9, 200⟩ 1).2⟩

/-- C1 counterexample: on the freshly initialized interpreter of a font
with no color palette, a solid fill with palette index 0 panics — the
glyph translation aborts instead of skipping the paint step. -/
theorem fill_resolution_failure_skip_cex :
    fill (colr_initial_state ⟨none, fun _ => none⟩) (Brush.solid 0 1) =
      Except.error () := rfl

/-- C1 (amended): an internal color-resolution failure during a fill step
is not skipped: the solid branch (and each gradient stop) unwraps the
absent color, panicking and aborting the glyph translation; only
unsupported sweep-gradient fills are skipped with a diagnostic while
interpretation continues. -/
theorem fill_resolution_failure_panics (s : PainterState) (palette_index : Nat)
    (alpha : ℚ) (hidx : palette_index ≠ 65535)
    (hcpal : s.font.cpalRecords = none) :
    fill s (Brush.solid palette_index alpha) = Except.error () ∧
    (∀ c0 start_angle end_angle color_stops extend,
      fill s (Brush.sweepGradient c0 start_angle end_angle color_stops extend) =
        Except.ok { s with warnings := s.warnings ++ [sweepWarning] }) := by
  constructor
  · simp [fill, palette_index_to_color, hidx, hcpal]
  · intro c0 start_angle end_angle color_stops extend
    rfl

/-- C1 witness: the panic and the sweep skip at concrete inputs. -/
theorem fill_resolution_failure_panics_witness :
    fill (colr_initial_state ⟨none, fun _ => none⟩) (Brush.solid 3 1) =
      Except.error () ∧
    fill (colr_initial_state ⟨none, fun _ => none⟩)
        (Brush.sweepGradient ⟨0, 0⟩ 0 1 [] Extend.pad) =
      Except.ok
        { colr_initial_state ⟨none, fun _ => none⟩ with
            warnings :=
              (colr_initial_state ⟨none, fun _ => none⟩).warnings ++
                [sweepWarning] } :=
  ⟨(fill_resolution_failure_panics (colr_initial_state ⟨none, fun _ => none⟩)
      3 1 (by decide) rfl).1,
   (fill_resolution_failure_panics (colr_initial_state ⟨none, fun _ => none⟩)
      3 1 (by decide) rfl).2 ⟨0, 0⟩ 0 1 [] Extend.pad⟩

/-- C4 counterexample: push_clip_glyph on a glyph whose outline exists
emits no clip-path definition and opens no group — the event stream and
the clip id counter are unchanged. -/
theorem push_clip_glyph_no_clip_emitted_cex :
    (push_clip_glyph
        (colr_initial_state ⟨none, fun _ => some [PathCmd.moveTo 0 0]⟩) 3).svg =
      (colr_initial_state ⟨none, fun _ => some [PathCmd.moveTo 0 0]⟩).svg ∧
    (push_clip_glyph
        (colr_initial_state ⟨none, fun _ => some [PathCmd.moveTo 0 0]⟩)
        3).clip_path_index = 1 :=
  ⟨rfl, rfl⟩

/-- C4 (amended): for a glyph whose outline is available, push_clip_glyph
renders the contour at unscaled resolution into the freshly cleared path
buffer and records the current active transform as the outline transform;
nothing else changes — in particular no clip-path definition is emitted
and no clipped group is opened (that happens only in push_clip_box). -/
theorem push_clip_glyph_records_only (s : PainterState) (glyph_id : Nat)
    (cmds : List PathCmd) (h : s.font.outlineGlyph glyph_id = some cmds) :
    push_clip_glyph s glyph_id =
      { s with path_buf := cmds, outline_transform := s.transform } := by
  simp [push_clip_glyph, h]

/-- C4 witness: the recording behavior at a concrete state and glyph. -/
theorem push_clip_glyph_records_only_witness :
    push_clip_glyph
        (colr_initial_state ⟨none, fun _ => some [PathCmd.moveTo 0 0]⟩) 3 =
      { colr_initial_state ⟨none, fun _ => some [PathCmd.moveTo 0 0]⟩ with
          path_buf := [PathCmd.moveTo 0 0],
          outline_transform :=
            (colr_initial_state
              ⟨none, fun _ => some [PathCmd.moveTo 0 0]⟩).transform } :=
  push_clip_glyph_records_only
    (colr_initial_state ⟨none, fun _ => some [PathCmd.moveTo 0 0]⟩) 3
    [PathCmd.moveTo 0 0] rfl

/-- C6: for a stored palette alpha in 0..255 and alpha factors in [0,1],
the combined 8-bit alpha is the round-down truncation of stored times
factor (the saturation of the cast never engages), it is non-increasing as
the factor decreases, and at factor 1 it equals the stored alpha exactly. -/
theorem alpha_combination_truncation (c : Color) (f g : ℚ)
    (hc : c.alpha ≤ 255) (_hf0 : 0 ≤ f) (hf1 : f ≤ 1) (_hg0 : 0 ≤ g)
    (hgf : g ≤ f) :
    (apply_alpha c f).alpha = Int.toNat (Int.floor ((c.alpha : ℚ) * f)) ∧
    (apply_alpha c g).alpha ≤ (apply_alpha c f).alpha ∧
    (apply_alpha c 1).alpha = c.alpha := by
  have ha : (0 : ℚ) ≤ (c.alpha : ℚ) := Nat.cast_nonneg _
  have hbound : ∀ q : ℚ, q ≤ (c.alpha : ℚ) →
      Int.toNat (Int.floor q) ≤ 255 := by
    intro q hq
    have h1 : Int.floor q ≤ Int.floor ((c.alpha : ℚ)) := Int.floor_le_floor hq
    have h2 : Int.floor ((c.alpha : ℚ)) = (c.alpha : ℤ) := Int.floor_natCast _
    have h3 : Int.toNat (Int.floor q) ≤ Int.toNat ((c.alpha : ℤ)) :=
      Int.toNat_le_toNat (h2 ▸ h1)
    have h4 : Int.toNat ((c.alpha : ℤ)) = c.alpha := Int.toNat_natCast _
    omega
  have hmf : (c.alpha : ℚ) * f ≤ (c.alpha : ℚ) := by
    calc (c.alpha : ℚ) * f ≤ (c.alpha : ℚ) * 1 :=
          mul_le_mul_of_nonneg_left hf1 ha
      _ = (c.alpha : ℚ) := mul_one _
  refine ⟨?_, ?_, ?_⟩
  · simp only [apply_alpha, rustCastU8]
    exact min_eq_left (hbound _ hmf)
  · simp only [apply_alpha, rustCastU8]
    refine min_le_min ?_ le_rfl
    exact Int.toNat_le_toNat
      (Int.floor_le_floor (mul_le_mul_of_nonneg_left hgf ha))
  · simp only [apply_alpha, rustCastU8, mul_one, Int.floor_natCast,
      Int.toNat_natCast]
    exact min_eq_left hc

/-- C6 witness: the three parts at stored alpha 200 and factors 1/2, 1/4. -/
theorem alpha_combination_truncation_witness :
    (apply_alpha ⟨0, 0, 0, 200⟩ (1/2)).alpha =
      Int.toNat (Int.floor (((200 : Nat) : ℚ) * (1/2))) ∧
    (apply_alpha ⟨0, 0, 0, 200⟩ (1/4)).alpha ≤
      (apply_alpha ⟨0, 0, 0, 200⟩ (1/2)).alpha ∧
    (apply_alpha ⟨0, 0, 0, 200⟩ 1).alpha = 200 :=
  alpha_combination_truncation ⟨0, 0, 0, 200⟩ (1/2) (1/4) (by decide)
    (by norm_num) (by norm_num) (by norm_num) (by norm_num)

/-- C8 counterexample: a solid fill on the freshly initialized interpreter
(whose path buffer holds no recorded outline) is not filtered out — it
emits a path element whose d attribute is the empty path. -/
theorem paint_solid_empty_path_emitted_cex :
    (paint_solid (colr_initial_state ⟨none, fun _ => none⟩)
        ⟨0, 0, 0, 255⟩).svg =
      (colr_initial_state ⟨none, fun _ => none⟩).svg ++
        [XmlEvent.startElement "path",
         XmlEvent.attrColor "fill" ⟨0, 0, 0, 255⟩,
         XmlEvent.attrNum "fill-opacity" 1,
         XmlEvent.attrPath "d" [],
         XmlEvent.endElement] := by
  simp only [paint_solid, colr_initial_state, write_transform_attribute,
    if_pos rfl]
  norm_num

/-- C8 (amended): the flattening pipeline filters an empty outline batch
(flushing an empty builder appends no node and leaves the children
unchanged), but the paint interpreter does not: paint_solid on a state
whose path buffer is empty still emits a path element whose d attribute is
the empty path. -/
theorem empty_path_buffer_handling (span : FSpan) (new_children : List FNode)
    (rendering_mode : ShapeRendering) (s : PainterState) (color : Color)
    (h : s.path_buf = []) :
    push_outline_paths span [] new_children rendering_mode =
      ([], new_children) ∧
    XmlEvent.attrPath "d" [] ∈ (paint_solid s color).svg := by
  constructor
  · rfl
  · simp [paint_solid, h]

/-- C8 witness: both halves at concrete inputs. -/
theorem empty_path_buffer_handling_witness :
    push_outline_paths
        ⟨true, none, none, PaintOrder.fillAndStroke, none, none, none, []⟩
        [] [] ShapeRendering.crispEdges = ([], []) ∧
    XmlEvent.attrPath "d" [] ∈
      (paint_solid (colr_initial_state ⟨none, fun _ => none⟩)
        ⟨0, 0, 0, 255⟩).svg :=
  empty_path_buffer_handling
    ⟨true, none, none, PaintOrder.fillAndStroke, none, none, none, []⟩
    [] ShapeRendering.crispEdges (colr_initial_state ⟨none, fun _ => none⟩)
    ⟨0, 0, 0, 255⟩ rfl

/-- C3: evaluation of the span loop on the failing input — a span whose
glyphs are an outline glyph, then a color-layer glyph, then another
outline glyph. The COLR branch does not flush the open outline batch (the
code comment at flatten.rs lines 73-78 says any different glyph should),
so the two outline runs merge into a single path node emitted after the
color-layer group: one path node where the claim requires two, and the
outline preceding the color-layer glyph is painted after it. -/
theorem colr_glyph_does_not_flush_eval :
    flatten_span ShapeRendering.geometricPrecision
      { visible := true
        fill := some 1
        stroke := none
        paintOrder := PaintOrder.fillAndStroke
        overline := none
        underline := none
        lineThrough := none
        positioned_glyphs :=
          [⟨none, none, none, some [PathCmd.moveTo 0 0, PathCmd.lineTo 1 1]⟩,
           ⟨some (some ⟨0, 0, 1, 1⟩, 7), none, none, none⟩,
           ⟨none, none, none,
            some [PathCmd.moveTo 2 2, PathCmd.lineTo 3 3]⟩] } =
      [FNode.group (some ⟨0, 0, 1, 1⟩) 7,
       FNode.path
         ⟨true, some 1, none, PaintOrder.fillAndStroke,
          ShapeRendering.geometricPrecision,
          [PathCmd.moveTo 0 0, PathCmd.lineTo 1 1,
           PathCmd.moveTo 2 2, PathCmd.lineTo 3 3]⟩] ∧
    (([FNode.group (some ⟨0, 0, 1, 1⟩) 7,
       FNode.path
         ⟨true, some 1, none, PaintOrder.fillAndStroke,
          ShapeRendering.geometricPrecision,
          [PathCmd.moveTo 0 0, PathCmd.lineTo 1 1,
           PathCmd.moveTo 2 2, PathCmd.lineTo 3 3]⟩] :
        List FNode).filter FNode.isPath).length = 1 := by
  decide

/-- A glyph none of whose four representations resolved. -/
def PositionedGlyph.unresolved (glyph : PositionedGlyph) : Prop :=
  glyph.colr = none ∧ glyph.svgDoc = none ∧ glyph.raster = none ∧
    glyph.outline = none

/-- A span with no decorations and no resolvable glyph. -/
def FSpan.unresolved (span : FSpan) : Prop :=
  span.overline = none ∧ span.underline = none ∧ span.lineThrough = none ∧
    ∀ glyph ∈ span.positioned_glyphs, glyph.unresolved

instance (glyph : PositionedGlyph) : Decidable glyph.unresolved := by
  unfold PositionedGlyph.unresolved
  infer_instance

instance (span : FSpan) : Decidable span.unresolved := by
  unfold FSpan.unresolved
  infer_instance

/-- The glyph loop leaves its state untouched when no glyph resolves. -/
theorem foldl_flatten_glyph_unresolved (span : FSpan)
    (rendering_mode : ShapeRendering) (glyphs : List PositionedGlyph)
    (h : ∀ glyph ∈ glyphs, glyph.unresolved) :
    ∀ st, glyphs.foldl (flatten_glyph span rendering_mode) st = st := by
  induction glyphs with
  | nil => intro st; rfl
  | cons g rest ih =>
    intro st
    have hg := h g (List.mem_cons_self g rest)
    obtain ⟨h1, h2, h3, h4⟩ := hg
    have hstep : flatten_glyph span rendering_mode st g = st := by
      simp [flatten_glyph, h1, h2, h3, h4]
    rw [List.foldl_cons, hstep]
    exact ih (fun glyph hm => h glyph (List.mem_cons_of_mem g hm)) st

/-- A fully unresolved span flattens to no nodes at all. -/
theorem flatten_span_unresolved (rendering_mode : ShapeRendering)
    (span : FSpan) (h : span.unresolved) :
    flatten_span rendering_mode span = [] := by
  obtain ⟨h1, h2, h3, h4⟩ := h
  simp only [flatten_span, h1, h2, h3, decoration_path, List.append_nil]
  rw [foldl_flatten_glyph_unresolved span rendering_mode
    span.positioned_glyphs h4]
  rfl

/-- C10: flatten returns absent exactly when the stroke bounding box of
the assembled children fails to convert to a non-zero rectangle; when the
conversion succeeds it returns the assembled group together with that
rectangle; and in particular a text none of whose spans carries a
decoration or a resolvable glyph flattens to absent. -/
theorem flatten_absent_iff_no_nonzero_bbox (text : FText) :
    (flatten text = none ↔
      to_non_zero_rect (group_stroke_bbox (flatten_children text)) = none) ∧
    (∀ r, to_non_zero_rect (group_stroke_bbox (flatten_children text)) =
        some r →
      flatten text = some (⟨text.id, flatten_children text⟩, r)) ∧
    ((∀ span ∈ text.layouted, span.unresolved) → flatten text = none) := by
  refine ⟨?_, ?_, ?_⟩
  · unfold flatten
    cases h : to_non_zero_rect (group_stroke_bbox (flatten_children text)) with
    | none => simp [h]
    | some r => simp [h]
  · intro r hr
    unfold flatten
    simp [hr]
  · intro hall
    have hchildren : flatten_children text = [] := by
      unfold flatten_children
      have : ∀ spans : List FSpan, (∀ span ∈ spans, span.unresolved) →
          ∀ acc : List FNode,
            spans.foldl (fun acc span => acc ++
              flatten_span (resolve_rendering_mode text.rendering_mode) span)
              acc = acc := by
        intro spans
        induction spans with
        | nil => intro _ acc; rfl
        | cons sp rest ih =>
          intro hsp acc
          rw [List.foldl_cons,
            flatten_span_unresolved _ sp (hsp sp (List.mem_cons_self sp rest)),
            List.append_nil]
          exact ih (fun s hm => hsp s (List.mem_cons_of_mem sp hm)) acc
      exact this text.layouted hall []
    unfold flatten
    rw [hchildren]
    rfl

/-- C10 witness: a text with one outline glyph flattens to its group and
bounding rectangle; a text with one undecorated span of one unresolvable
glyph flattens to absent. -/
theorem flatten_absent_iff_no_nonzero_bbox_witness :
    flatten
        ⟨"a", TextRendering.geometricPrecision,
          [⟨true, some 1, none, PaintOrder.fillAndStroke, none, none, none,
            [⟨none, none, none,
              some [PathCmd.moveTo 0 0, PathCmd.lineTo 1 1]⟩]⟩]⟩ =
      some
        (⟨"a",
          flatten_children
            ⟨"a", TextRendering.geometricPrecision,
              [⟨true, some 1, none, PaintOrder.fillAndStroke, none, none,
                none,
                [⟨none, none, none,
                  some [PathCmd.moveTo 0 0, PathCmd.lineTo 1 1]⟩]⟩]⟩⟩,
          ⟨0, 0, 1, 1⟩) ∧
    flatten
        ⟨"b", TextRendering.geometricPrecision,
          [⟨true, none, none, PaintOrder.fillAndStroke, none, none, none,
            [⟨none, none, none, none⟩]⟩]⟩ = none :=
  ⟨(flatten_absent_iff_no_nonzero_bbox _).2.1 ⟨0, 0, 1, 1⟩ (by decide),
   (flatten_absent_iff_no_nonzero_bbox _).2.2 (by decide)⟩

/-- Composition of tiny-skia transforms is associative. -/
theorem TspTransform.mul_assoc (a b c : TspTransform) :
    TspTransform.mul (TspTransform.mul a b) c =
      TspTransform.mul a (TspTransform.mul b c) := by
  cases a; cases b; cases c
  simp only [TspTransform.mul, TspTransform.mk.injEq]
  refine ⟨by ring, by ring, by ring, by ring, by ring, by ring⟩

/-- The identity is a left unit for composition. -/
theorem TspTransform.ident_mul (a : TspTransform) :
    TspTransform.mul TspTransform.ident a = a := by
  cases a
  simp only [TspTransform.mul, TspTransform.ident, TspTransform.mk.injEq]
  refine ⟨by ring, by ring, by ring, by ring, by ring, by ring⟩

/-- A non-singular transform composed with its computed inverse is the
identity. -/
theorem TspTransform.mul_invert (t inv : TspTransform) (h : t.det ≠ 0)
    (hinv : t.invert = some inv) :
    TspTransform.mul t inv = TspTransform.ident := by
  rw [TspTransform.invert, if_neg h] at hinv
  have hd : t.sx * t.sy - t.kx * t.ky ≠ 0 := by
    simpa [TspTransform.det] using h
  obtain rfl : _ = inv := Option.some.inj hinv
  simp only [TspTransform.mul, TspTransform.ident, TspTransform.det,
    TspTransform.mk.injEq]
  refine ⟨?_, ?_, ?_, ?_, ?_, ?_⟩ <;> field_simp <;> ring

/-- Round trip of the field shuffles in transform.rs. -/
theorem tsp_skrifa_roundtrip (t : Transform) (u : TspTransform) :
    tsp_to_skrifa_transform (skrifa_to_tsp_transform t) = t ∧
    skrifa_to_tsp_transform (tsp_to_skrifa_transform u) = u := by
  constructor
  · cases t; rfl
  · cases u; rfl

/-- C7: when the outline transform is invertible, composing it with the
computed gradient-space transform recovers the paint-local transform
(the result is outline-inverse pre-concatenated with paint-local) and no
diagnostic fires; when the outline transform is singular the identity
replaces the inverse, so the result degrades to exactly the paint-local
transform and the diagnostic fires. The computation is a total function:
it never fails the glyph translation. -/
theorem paint_transform_gradient_delta (outline_transform transform : Transform) :
    ((skrifa_to_tsp_transform outline_transform).det ≠ 0 →
      TspTransform.mul (skrifa_to_tsp_transform outline_transform)
          (skrifa_to_tsp_transform
            (paint_transform outline_transform transform).1) =
        skrifa_to_tsp_transform transform ∧
      (paint_transform outline_transform transform).2 = false) ∧
    ((skrifa_to_tsp_transform outline_transform).det = 0 →
      (paint_transform outline_transform transform).1 = transform ∧
      (paint_transform outline_transform transform).2 = true) := by
  constructor
  · intro h
    cases hinv : (skrifa_to_tsp_transform outline_transform).invert with
    | none =>
      rw [TspTransform.invert, if_neg h] at hinv
      exact absurd hinv (by simp)
    | some inv =>
      constructor
      · simp only [paint_transform, hinv, TspTransform.pre_concat]
        rw [(tsp_skrifa_roundtrip transform
          (TspTransform.mul inv (skrifa_to_tsp_transform transform))).2]
        rw [← TspTransform.mul_assoc,
          TspTransform.mul_invert _ inv h hinv,
          TspTransform.ident_mul]
      · simp only [paint_transform, hinv]
  · intro h
    have hinv : (skrifa_to_tsp_transform outline_transform).invert = none := by
      rw [TspTransform.invert, if_pos h]
    constructor
    · simp only [paint_transform, hinv, TspTransform.pre_concat,
        TspTransform.ident_mul]
      exact (tsp_skrifa_roundtrip transform
        (skrifa_to_tsp_transform transform)).1
    · simp only [paint_transform, hinv]

/-- C7 witness: the invertible case at the identity outline transform and
the singular case at the zero outline transform, both against the
translation (5, 7). -/
theorem paint_transform_gradient_delta_witness :
    TspTransform.mul (skrifa_to_tsp_transform Transform.ident)
        (skrifa_to_tsp_transform
          (paint_transform Transform.ident ⟨1, 0, 0, 1, 5, 7⟩).1) =
      skrifa_to_tsp_transform ⟨1, 0, 0, 1, 5, 7⟩ ∧
    (paint_transform ⟨0, 0, 0, 0, 0, 0⟩ ⟨1, 0, 0, 1, 5, 7⟩).1 =
      ⟨1, 0, 0, 1, 5, 7⟩ ∧
    (paint_transform ⟨0, 0, 0, 0, 0, 0⟩ ⟨1, 0, 0, 1, 5, 7⟩).2 = true :=
  ⟨((paint_transform_gradient_delta Transform.ident ⟨1, 0, 0, 1, 5, 7⟩).1
      (by norm_num [skrifa_to_tsp_transform, TspTransform.det,
        Transform.ident])).1,
   ((paint_transform_gradient_delta ⟨0, 0, 0, 0, 0, 0⟩ ⟨1, 0, 0, 1, 5, 7⟩).2
      (by norm_num [skrifa_to_tsp_transform, TspTransform.det])).1,
   ((paint_transform_gradient_delta ⟨0, 0, 0, 0, 0, 0⟩ ⟨1, 0, 0, 1, 5, 7⟩).2
      (by norm_num [skrifa_to_tsp_transform, TspTransform.det])).2⟩

end Resvg
